import Mathlib

/-!
Verification of the xterm-helpers terminal-cell style resolver
(`plugins/plugin-bash-like/src/pty/xterm-helpers/index.ts`).

The TypeScript source is shallowly embedded below.  All color values in
the claims are non-negative and stay below 2^31, a range on which the
JavaScript signed 32-bit operators `>>` and `&` agree with `Nat.shiftRight`
and `Nat.land`, so colors are modelled as `Nat`.
-/

/-- Color mode constants from xterm (the `const enum ColorMode`). -/
def ColorMode.DEFAULT : Nat := 0

/-- Color mode constant `PALETTE`. -/
def ColorMode.PALETTE : Nat := 1

/-- Color mode constant `RGB`. -/
def ColorMode.RGB : Nat := 2

/-- ANSI color palette (standard 16 colors), verbatim from the source. -/
def colorPalette : List String :=
  ["#000000", "#cd0000", "#00cd00", "#cdcd00", "#0000ee", "#cd00cd", "#00cdcd", "#e5e5e5",
   "#7f7f7f", "#ff0000", "#00ff00", "#ffff00", "#5c5cff", "#ff00ff", "#00ffff", "#ffffff"]

/-- JavaScript `x.toString(16)` for a non-negative integer: lowercase hex
digits, no leading zeros (and `"0"` for zero). -/
def toHex (n : Nat) : String :=
  String.mk (Nat.toDigits 16 n)

/-- The per-channel body of the `map` in `rgbToHex`:
`const hex = x.toString(16); return hex.length === 1 ? '0' + hex : hex`. -/
def toPaddedHex (x : Nat) : String :=
  let hex := toHex x
  if hex.length = 1 then "0" ++ hex else hex

/-- Convert RGB color values to hex format (source function `rgbToHex`). -/
def rgbToHex (r g b : Nat) : String :=
  "#" ++ String.join ([r, g, b].map toPaddedHex)

/-- Get color from xterm color mode (source function `getColor`). -/
def getColor (colorMode : Nat) (color : Nat) : String :=
  if colorMode = ColorMode.DEFAULT then
    ""
  else if colorMode = ColorMode.PALETTE then
    if color < 16 then
      colorPalette.getD color ""
    else if color < 232 then
      -- 216 color cube
      let c := color - 16
      let r := c / 36
      let g := c % 36 / 6
      let b := c % 6
      rgbToHex (if r ≠ 0 then r * 40 + 55 else 0)
        (if g ≠ 0 then g * 40 + 55 else 0)
        (if b ≠ 0 then b * 40 + 55 else 0)
    else
      -- Grayscale
      let gray := (color - 232) * 10 + 8
      rgbToHex gray gray gray
  else if colorMode = ColorMode.RGB then
    let r := (color >>> 16) &&& 0xFF
    let g := (color >>> 8) &&& 0xFF
    let b := color &&& 0xFF
    rgbToHex r g b
  else
    ""

/-- The capability set of an xterm `IBufferCell` that
`prepareCellForDomRenderer` reads: seven boolean attribute accessors,
the fg/bg color mode and value accessors, and the character content. -/
structure Cell where
  isBold : Bool
  isItalic : Bool
  isDim : Bool
  isUnderline : Bool
  isStrikethrough : Bool
  isBlink : Bool
  isInvisible : Bool
  getFgColorMode : Nat
  getFgColor : Nat
  getBgColorMode : Nat
  getBgColor : Nat
  getChars : String
deriving DecidableEq, Repr

/-- The render triple returned by `prepareCellForDomRenderer`. -/
structure RenderStyle where
  classList : String
  style : String
  textContent : String
deriving DecidableEq, Repr

/-- Prepare an xterm IBufferCell for DOM rendering (source function
`prepareCellForDomRenderer`).  The sequential `push` calls of the source
are modelled as list appends in the same order; the JavaScript truthiness
test `if (fgColor)` on a string is the non-emptiness test. -/
def prepareCellForDomRenderer (cell : Cell) : RenderStyle :=
  let classList : List String :=
    (if cell.isBold then ["xterm-bold"] else []) ++
    (if cell.isItalic then ["xterm-italic"] else []) ++
    (if cell.isDim then ["xterm-dim"] else []) ++
    (if cell.isUnderline then ["xterm-underline"] else []) ++
    (if cell.isStrikethrough then ["xterm-strikethrough"] else []) ++
    (if cell.isBlink then ["xterm-blink"] else []) ++
    (if cell.isInvisible then ["xterm-invisible"] else [])
  let fgColor := getColor cell.getFgColorMode cell.getFgColor
  let bgColor := getColor cell.getBgColorMode cell.getBgColor
  let styles : List String :=
    (if fgColor = "" then [] else ["color: " ++ fgColor]) ++
    (if bgColor = "" then [] else ["background-color: " ++ bgColor])
  { classList := String.intercalate " " classList
    style := String.intercalate "; " styles
    textContent := cell.getChars }

/-- The spec's cube-channel formula: axis component `k` maps to channel
`0` if `k = 0` and to `k*40+55` otherwise. -/
def cubeChannelSpec (k : Nat) : Nat :=
  if k = 0 then 0 else k * 40 + 55

/-- The spec's description of the class list: seven checks in the fixed
order bold, italic, dim, underline, strikethrough, blink, invisible, each
true check contributing exactly its fixed token. -/
def specClassTokens (cell : Cell) : List String :=
  (List.zip
    [cell.isBold, cell.isItalic, cell.isDim, cell.isUnderline,
     cell.isStrikethrough, cell.isBlink, cell.isInvisible]
    ["xterm-bold", "xterm-italic", "xterm-dim", "xterm-underline",
     "xterm-strikethrough", "xterm-blink", "xterm-invisible"]).filterMap
    fun p => if p.1 then some p.2 else none

/-- The spec's description of the style list: a `color:` entry exactly
when the foreground resolves non-empty, then a `background-color:` entry
exactly when the background resolves non-empty. -/
def specStyleList (cell : Cell) : List String :=
  (if getColor cell.getFgColorMode cell.getFgColor = "" then []
   else ["color: " ++ getColor cell.getFgColorMode cell.getFgColor]) ++
  (if getColor cell.getBgColorMode cell.getBgColor = "" then []
   else ["background-color: " ++ getColor cell.getBgColorMode cell.getBgColor])

/-- A lowercase hexadecimal digit. -/
def isLowerHexDigit (c : Char) : Bool :=
  (48 ≤ c.toNat && c.toNat ≤ 57) || (97 ≤ c.toNat && c.toNat ≤ 102)

/-- The well-formedness predicate of resolved color strings: exactly 7
characters, a `#` followed by 6 lowercase hex digits. -/
def isHex7 (s : String) : Bool :=
  s.length == 7 && s.data.head? == some '#' && (s.data.drop 1).all isLowerHexDigit

/-- Mode `DEFAULT` resolves to the empty string. -/
theorem getColor_default_eq (v : Nat) : getColor ColorMode.DEFAULT v = "" := rfl

/-- The cube branch of `getColor`, with its inline channel conditionals. -/
theorem getColor_palette_cube (v : Nat) (h1 : 16 ≤ v) (h2 : v < 232) :
    getColor ColorMode.PALETTE v =
      rgbToHex (if (v - 16) / 36 ≠ 0 then (v - 16) / 36 * 40 + 55 else 0)
        (if (v - 16) % 36 / 6 ≠ 0 then (v - 16) % 36 / 6 * 40 + 55 else 0)
        (if (v - 16) % 6 ≠ 0 then (v - 16) % 6 * 40 + 55 else 0) := by
  unfold getColor
  rw [if_neg (by decide), if_pos rfl, if_neg (by omega), if_pos h2]

/-- The grayscale branch of `getColor` catches every palette value
`≥ 232`, with no upper bound. -/
theorem getColor_palette_gray (v : Nat) (h : 232 ≤ v) :
    getColor ColorMode.PALETTE v =
      rgbToHex ((v - 232) * 10 + 8) ((v - 232) * 10 + 8) ((v - 232) * 10 + 8) := by
  unfold getColor
  rw [if_neg (by decide), if_pos rfl, if_neg (by omega), if_neg (by omega)]

/-- The `RGB` branch of `getColor`. -/
theorem getColor_rgb_eq (v : Nat) :
    getColor ColorMode.RGB v =
      rgbToHex ((v >>> 16) &&& 0xFF) ((v >>> 8) &&& 0xFF) (v &&& 0xFF) := rfl

/-- The character data of `rgbToHex` is a `#` followed by the three
padded channels. -/
theorem rgbToHex_data (r g b : Nat) :
    (rgbToHex r g b).data =
      '#' :: ((toPaddedHex r).data ++ ((toPaddedHex g).data ++ (toPaddedHex b).data)) := by
  simp [rgbToHex, String.data_join]

/-- `rgbToHex` never returns the empty string: it always starts with `#`. -/
theorem rgbToHex_ne_empty (r g b : Nat) : rgbToHex r g b ≠ "" := by
  intro h
  have h2 := congrArg String.data h
  rw [rgbToHex_data] at h2
  exact List.cons_ne_nil _ _ (h2.trans rfl)

/-- The inline conditional of the cube branch agrees with the spec's
channel formula. -/
theorem cubeChannel_eq (k : Nat) :
    (if k ≠ 0 then k * 40 + 55 else 0) = cubeChannelSpec k := by
  unfold cubeChannelSpec
  by_cases h : k = 0 <;> simp [h]

set_option maxRecDepth 4000 in
/-- A channel below 256 pads to exactly two lowercase hex digits. -/
theorem toPaddedHex_two : ∀ x, x < 256 →
    (toPaddedHex x).data.length = 2 ∧ (toPaddedHex x).data.all isLowerHexDigit = true := by
  decide

/-- `rgbToHex` of three in-range channels satisfies the 7-character
lowercase-hex well-formedness predicate. -/
theorem isHex7_rgbToHex (r g b : Nat) (hr : r < 256) (hg : g < 256) (hb : b < 256) :
    isHex7 (rgbToHex r g b) = true := by
  obtain ⟨lr, ar⟩ := toPaddedHex_two r hr
  obtain ⟨lg, ag⟩ := toPaddedHex_two g hg
  obtain ⟨lb, ab⟩ := toPaddedHex_two b hb
  have hlen : (rgbToHex r g b).length = (rgbToHex r g b).data.length := rfl
  unfold isHex7
  rw [hlen, rgbToHex_data]
  simp [List.all_append, ar, ag, ab, lr, lg, lb]

/-- C1 counterexample: at PALETTE value 256 the resolver does not return
the empty string; it falls into the grayscale branch and yields
`"#f8f8f8"`. -/
theorem getColor_palette_256_not_empty :
    getColor ColorMode.PALETTE 256 = "#f8f8f8" ∧ getColor ColorMode.PALETTE 256 ≠ "" := by
  constructor
  · decide
  · decide

/-- C1 (amended): for every PALETTE-mode color value `≥ 256`, `getColor`
takes the grayscale branch, returning `rgbToHex` of three channels all
equal to `(value - 232)*10 + 8`, which is never the empty string. -/
theorem getColor_palette_ge256_grayscale (v : Nat) (h : 256 ≤ v) :
    getColor ColorMode.PALETTE v =
      rgbToHex ((v - 232) * 10 + 8) ((v - 232) * 10 + 8) ((v - 232) * 10 + 8) ∧
    getColor ColorMode.PALETTE v ≠ "" := by
  refine ⟨getColor_palette_gray v (by omega), ?_⟩
  rw [getColor_palette_gray v (by omega)]
  exact rgbToHex_ne_empty _ _ _

/-- C1 witness: the amended claim at the concrete value 300. -/
theorem getColor_palette_ge256_grayscale_witness :
    getColor ColorMode.PALETTE 300 =
      rgbToHex ((300 - 232) * 10 + 8) ((300 - 232) * 10 + 8) ((300 - 232) * 10 + 8) ∧
    getColor ColorMode.PALETTE 300 ≠ "" :=
  getColor_palette_ge256_grayscale 300 (by decide)

/-- C2: for every value in `[16, 232)`, PALETTE mode computes
`c = value - 16`, splits it into cube coordinates `c/36`, `c%36/6`,
`c%6`, maps each through the spec's channel formula, and composes the
hex string; the cube endpoints are `"#000000"` and `"#ffffff"`. -/
theorem getColor_palette_cube_spec :
    (∀ v, 16 ≤ v → v < 232 →
      getColor ColorMode.PALETTE v =
        rgbToHex (cubeChannelSpec ((v - 16) / 36)) (cubeChannelSpec ((v - 16) % 36 / 6))
          (cubeChannelSpec ((v - 16) % 6))) ∧
    getColor ColorMode.PALETTE 16 = "#000000" ∧ getColor ColorMode.PALETTE 231 = "#ffffff" := by
  refine ⟨fun v h1 h2 => ?_, by decide, by decide⟩
  rw [getColor_palette_cube v h1 h2, cubeChannel_eq, cubeChannel_eq, cubeChannel_eq]

/-- C2 witness: the cube formula at the concrete value 100. -/
theorem getColor_palette_cube_spec_witness :
    getColor ColorMode.PALETTE 100 =
      rgbToHex (cubeChannelSpec ((100 - 16) / 36)) (cubeChannelSpec ((100 - 16) % 36 / 6))
        (cubeChannelSpec ((100 - 16) % 6)) :=
  getColor_palette_cube_spec.1 100 (by decide) (by decide)

/-- C3: for every value in `[232, 256)`, PALETTE mode returns the hex
string whose three channels all equal `(value - 232)*10 + 8`; in
particular 232 yields `"#080808"` and 255 yields `"#eeeeee"`. -/
theorem getColor_palette_grayscale_spec :
    (∀ v, 232 ≤ v → v < 256 →
      getColor ColorMode.PALETTE v =
        rgbToHex ((v - 232) * 10 + 8) ((v - 232) * 10 + 8) ((v - 232) * 10 + 8)) ∧
    getColor ColorMode.PALETTE 232 = "#080808" ∧ getColor ColorMode.PALETTE 255 = "#eeeeee" :=
  ⟨fun v h1 _ => getColor_palette_gray v h1, by decide, by decide⟩

/-- C3 witness: the grayscale formula at the concrete value 240. -/
theorem getColor_palette_grayscale_spec_witness :
    getColor ColorMode.PALETTE 240 =
      rgbToHex ((240 - 232) * 10 + 8) ((240 - 232) * 10 + 8) ((240 - 232) * 10 + 8) :=
  getColor_palette_grayscale_spec.1 240 (by decide) (by decide)

/-- C4: for every 24-bit value, RGB mode returns the hex composition of
exactly the three packed bytes (bits 16-23, 8-15, 0-7); in particular
`0xFF8000` yields `"#ff8000"`. -/
theorem getColor_rgb_bytes :
    (∀ v, v < 2 ^ 24 →
      getColor ColorMode.RGB v =
        rgbToHex (v / 2 ^ 16 % 2 ^ 8) (v / 2 ^ 8 % 2 ^ 8) (v % 2 ^ 8)) ∧
    getColor ColorMode.RGB 0xFF8000 = "#ff8000" := by
  refine ⟨fun v _ => ?_, by decide⟩
  rw [getColor_rgb_eq]
  have h255 : (0xFF : Nat) = 2 ^ 8 - 1 := by norm_num
  rw [h255, Nat.and_pow_two_sub_one_eq_mod, Nat.and_pow_two_sub_one_eq_mod,
    Nat.and_pow_two_sub_one_eq_mod, Nat.shiftRight_eq_div_pow, Nat.shiftRight_eq_div_pow]

/-- C4 witness: the byte decomposition at the concrete value `0x123456`. -/
theorem getColor_rgb_bytes_witness :
    getColor ColorMode.RGB 0x123456 =
      rgbToHex (0x123456 / 2 ^ 16 % 2 ^ 8) (0x123456 / 2 ^ 8 % 2 ^ 8) (0x123456 % 2 ^ 8) :=
  getColor_rgb_bytes.1 0x123456 (by norm_num)

set_option maxRecDepth 4000 in
/-- C5: for every value in `[0, 16)`, PALETTE mode returns the matching
entry of the fixed 16-entry ANSI table `colorPalette`; in particular
value 1 yields `"#cd0000"`. -/
theorem getColor_palette_ansi16 :
    (∀ v, v < 16 → getColor ColorMode.PALETTE v = colorPalette.getD v "") ∧
    getColor ColorMode.PALETTE 1 = "#cd0000" := by
  constructor
  · decide
  · decide

/-- C5 witness: the table lookup at the concrete value 3. -/
theorem getColor_palette_ansi16_witness :
    getColor ColorMode.PALETTE 3 = colorPalette.getD 3 "" :=
  getColor_palette_ansi16.1 3 (by decide)

/-- C6: mode `DEFAULT` returns the empty string for every color value,
and any mode other than `DEFAULT`, `PALETTE`, `RGB` also returns the
empty string; `getColor` is a total function, so no input raises. -/
theorem getColor_default_and_unknown_modes :
    (∀ v, getColor ColorMode.DEFAULT v = "") ∧
    (∀ m v, m ≠ ColorMode.DEFAULT → m ≠ ColorMode.PALETTE → m ≠ ColorMode.RGB →
      getColor m v = "") := by
  refine ⟨fun v => rfl, fun m v h0 h1 h2 => ?_⟩
  unfold getColor
  rw [if_neg h0, if_neg h1, if_neg h2]

/-- C6 witness: the unknown-mode branch at mode 7, value 3. -/
theorem getColor_default_and_unknown_modes_witness :
    getColor 7 3 = "" :=
  getColor_default_and_unknown_modes.2 7 3 (by decide) (by decide) (by decide)

/-- C7: the class list is exactly the space-join of the tokens produced
by the seven attribute checks in the fixed order bold, italic, dim,
underline, strikethrough, blink, invisible, each attribute contributing
its token independently of the others; a cell whose only true attribute
is bold yields `"xterm-bold"`. -/
theorem prepareCell_classList_spec :
    (∀ cell, (prepareCellForDomRenderer cell).classList =
      String.intercalate " " (specClassTokens cell)) ∧
    (∀ cell, cell.isBold = true → cell.isItalic = false → cell.isDim = false →
      cell.isUnderline = false → cell.isStrikethrough = false → cell.isBlink = false →
      cell.isInvisible = false → (prepareCellForDomRenderer cell).classList = "xterm-bold") := by
  constructor
  · intro cell
    obtain ⟨b, i, d, u, st, bl, inv, fm, fv, bm, bv, ch⟩ := cell
    cases b <;> cases i <;> cases d <;> cases u <;> cases st <;> cases bl <;> cases inv <;> rfl
  · intro cell h1 h2 h3 h4 h5 h6 h7
    simp only [prepareCellForDomRenderer, h1, h2, h3, h4, h5, h6, h7, if_true, if_false,
      Bool.false_eq_true, List.append_nil, List.nil_append]
    rfl

/-- C7 witness: a concrete bold-only cell yields class list `"xterm-bold"`. -/
theorem prepareCell_classList_spec_witness :
    (prepareCellForDomRenderer
      ⟨true, false, false, false, false, false, false, 0, 0, 0, 0, "x"⟩).classList =
      "xterm-bold" :=
  prepareCell_classList_spec.2 ⟨true, false, false, false, false, false, false, 0, 0, 0, 0, "x"⟩
    rfl rfl rfl rfl rfl rfl rfl

/-- C8: the style string is the `"; "`-join of a `color:` entry exactly
when the foreground resolves non-empty and a `background-color:` entry
exactly when the background resolves non-empty, foreground first; a cell
with fg mode DEFAULT and bg mode PALETTE value 1 yields
`"background-color: #cd0000"`; and textContent is the cell's character
content unmodified. -/
theorem prepareCell_style_spec :
    (∀ cell, (prepareCellForDomRenderer cell).style =
      String.intercalate "; " (specStyleList cell)) ∧
    (∀ cell, cell.getFgColorMode = ColorMode.DEFAULT → cell.getBgColorMode = ColorMode.PALETTE →
      cell.getBgColor = 1 →
      (prepareCellForDomRenderer cell).style = "background-color: #cd0000") ∧
    (∀ cell, (prepareCellForDomRenderer cell).textContent = cell.getChars) := by
  refine ⟨fun cell => rfl, fun cell hf hb hv => ?_, fun cell => rfl⟩
  have hbg : getColor cell.getBgColorMode cell.getBgColor = "#cd0000" := by
    rw [hb, hv]; decide
  simp only [prepareCellForDomRenderer, hf, hbg, getColor_default_eq]
  rfl

/-- C8 witness: a concrete cell with fg DEFAULT and bg PALETTE 1. -/
theorem prepareCell_style_spec_witness :
    (prepareCellForDomRenderer
      ⟨false, false, false, false, false, false, false, ColorMode.DEFAULT, 5, ColorMode.PALETTE,
        1, "a"⟩).style = "background-color: #cd0000" :=
  prepareCell_style_spec.2.1
    ⟨false, false, false, false, false, false, false, ColorMode.DEFAULT, 5, ColorMode.PALETTE,
      1, "a"⟩ rfl rfl rfl

set_option maxRecDepth 4000 in
/-- C9: every input that resolves to a non-empty color (PALETTE with a
value in `[0, 256)`, or RGB with a 24-bit value) yields a string of
exactly 7 characters, a `#` followed by 6 lowercase hex digits. -/
theorem getColor_hex7 (m v : Nat)
    (h : (m = ColorMode.PALETTE ∧ v < 256) ∨ (m = ColorMode.RGB ∧ v < 2 ^ 24)) :
    isHex7 (getColor m v) = true := by
  rcases h with ⟨rfl, hv⟩ | ⟨rfl, hv⟩
  · rcases Nat.lt_or_ge v 16 with h16 | h16
    · have hball : ∀ w, w < 16 → isHex7 (getColor ColorMode.PALETTE w) = true := by decide
      exact hball v h16
    · rcases Nat.lt_or_ge v 232 with h232 | h232
      · rw [getColor_palette_cube v h16 h232]
        apply isHex7_rgbToHex <;> split <;> omega
      · rw [getColor_palette_gray v h232]
        apply isHex7_rgbToHex <;> omega
  · rw [getColor_rgb_eq]
    apply isHex7_rgbToHex <;> exact Nat.lt_succ_of_le Nat.and_le_right

/-- C9 witness: the shape predicate at RGB value `0xFF8000`. -/
theorem getColor_hex7_witness :
    isHex7 (getColor ColorMode.RGB 0xFF8000) = true :=
  getColor_hex7 ColorMode.RGB 0xFF8000 (Or.inr ⟨rfl, by norm_num⟩)

/-- C10: RGB mode depends only on the low 24 bits: for every value below
`2^31`, resolving it equals resolving its residue mod `2^24`. -/
theorem getColor_rgb_low24 (v : Nat) (h : v < 2 ^ 31) :
    getColor ColorMode.RGB v = getColor ColorMode.RGB (v % 2 ^ 24) := by
  rw [getColor_rgb_eq, getColor_rgb_eq]
  have h255 : (0xFF : Nat) = 2 ^ 8 - 1 := by norm_num
  have e1 : (v >>> 16) &&& 0xFF = ((v % 2 ^ 24) >>> 16) &&& 0xFF := by
    simp only [h255, Nat.shiftRight_eq_div_pow, Nat.and_pow_two_sub_one_eq_mod]
    norm_num
    omega
  have e2 : (v >>> 8) &&& 0xFF = ((v % 2 ^ 24) >>> 8) &&& 0xFF := by
    simp only [h255, Nat.shiftRight_eq_div_pow, Nat.and_pow_two_sub_one_eq_mod]
    norm_num
    omega
  have e3 : v &&& 0xFF = (v % 2 ^ 24) &&& 0xFF := by
    simp only [h255, Nat.and_pow_two_sub_one_eq_mod]
    norm_num
  rw [e1, e2, e3]

/-- C10 witness: the low-24-bit property at the concrete value `0x12345678`. -/
theorem getColor_rgb_low24_witness :
    getColor ColorMode.RGB 0x12345678 = getColor ColorMode.RGB (0x12345678 % 2 ^ 24) :=
  getColor_rgb_low24 0x12345678 (by norm_num)
